import Mathlib

set_option linter.unusedVariables false

namespace EBW

/-- Model of a JavaScript runtime value, as far as the repository inspects
values: undefined, null, booleans, numbers, strings, functions, plain objects
(prototype Object.prototype) and arrays (prototype Array.prototype). -/
inductive JSValue where
  | undefined
  | null
  | bool (b : Bool)
  | num (n : Int)
  | str (s : String)
  | func
  | obj (fields : List (String × JSValue))
  | arr (elems : List JSValue)

/-- The JavaScript typeof operator restricted to JSValue. -/
def jsTypeOf : JSValue → String
  | .undefined => "undefined"
  | .null => "object"
  | .bool _ => "boolean"
  | .num _ => "number"
  | .str _ => "string"
  | .func => "function"
  | .obj _ => "object"
  | .arr _ => "object"

/-- Property access o.k on a plain object: first binding of the key, or
undefined when absent or when o is not an object with that key. -/
def jsGetField (o : JSValue) (k : String) : JSValue :=
  match o with
  | .obj fields => (fields.lookup k).getD .undefined
  | _ => .undefined

/-- Loose equality with undefined (the source uses == and !=): both undefined
and null compare loosely equal to undefined. -/
def jsLooseEqUndefined : JSValue → Bool
  | .undefined => true
  | .null => true
  | _ => false

/-! ## src/Util.ts -/

/-- Util.ts isIWebHookEvent (lines 12-18):
cons.event != undefined
  and (cons.symbol == undefined or typeof cons.symbol == boolean)
  and (cons.args == undefined or typeof cons.args == object).
The comparisons with undefined are loose, so null passes them as well. -/
def isIWebHookEvent (o : JSValue) : Bool :=
  !jsLooseEqUndefined (jsGetField o "event")
    && (jsLooseEqUndefined (jsGetField o "symbol")
        || jsTypeOf (jsGetField o "symbol") == "boolean")
    && (jsLooseEqUndefined (jsGetField o "args")
        || jsTypeOf (jsGetField o "args") == "object")

/-- A canonical JavaScript array-index string: a decimal numeral with no
leading zero (or the single digit 0). These are exactly the own index keys
of an array object. -/
def jsIsArrayIndexString (s : String) : Bool :=
  !s.data.isEmpty && s.data.all Char.isDigit
    && (s.data.length == 1 || s.data.head? != some '0')

/-- Numeric value of a canonical array-index string, none otherwise. -/
def jsStringToIndex (s : String) : Option Nat :=
  if jsIsArrayIndexString s
  then some (s.data.foldl (fun n c => n * 10 + (c.toNat - 48)) 0)
  else none

/-- Non-index property names visible on a JavaScript array through the
property-membership operator: the own length property plus the members of
Array.prototype and Object.prototype. -/
def arrayInheritedPropertyNames : List String :=
  ["length", "constructor", "at", "concat", "copyWithin", "entries", "every",
   "fill", "filter", "find", "findIndex", "findLast", "findLastIndex", "flat",
   "flatMap", "forEach", "includes", "indexOf", "join", "keys", "lastIndexOf",
   "map", "pop", "push", "reduce", "reduceRight", "reverse", "shift", "slice",
   "some", "sort", "splice", "toLocaleString", "toString", "unshift", "values",
   "hasOwnProperty", "isPrototypeOf", "propertyIsEnumerable", "valueOf"]

/-- The JavaScript binary membership operator applied to a key and an ARRAY of
length len (the form used by Util.ts isIWebStatusResponse): true exactly when
the key names a property of the array object, i.e. a canonical index below the
length, or an inherited or own non-index property. The VALUES stored in the
array are never consulted. -/
def jsInStringArray (needle : String) (len : Nat) : Bool :=
  (match jsStringToIndex needle with
   | some k => decide (k < len)
   | none => false)
  || arrayInheritedPropertyNames.contains needle

/-- Reflect.ownKeys: own property names of an object or array; throws a
TypeError on primitives. -/
def jsOwnKeys : JSValue → Except String (List String)
  | .obj fields => .ok (fields.map Prod.fst)
  | .arr elems => .ok ((List.range elems.length).map Nat.repr ++ ["length"])
  | _ => .error "Reflect.ownKeys called on non-object"

/-- Util.ts isIWebStatusResponse (lines 20-24): takes the ARRAY of own keys and
tests each expected name with the property-membership operator AGAINST THAT
ARRAY, so it looks at the array of key strings as an object, never at its
elements. Throws only when Reflect.ownKeys does (non-object input). -/
def isIWebStatusResponse (o : JSValue) : Except String Bool :=
  match jsOwnKeys o with
  | .error e => .error e
  | .ok keys =>
      .ok (jsInStringArray "servers" keys.length
        && jsInStringArray "nodeStatus" keys.length
        && jsInStringArray "eventNames" keys.length
        && jsInStringArray "networkStatus" keys.length)

/-- Util.ts isPOJO (lines 31-35): false for null and non-objects, else true
exactly when the prototype is Object.prototype (so plain objects qualify,
arrays and functions do not). -/
def isPOJO : JSValue → Bool
  | .obj _ => true
  | _ => false

/-- The object spread of an argument list, as built by emit for its guard:
spreading an array into an object literal yields a plain object whose fields
are the indices; its prototype is always Object.prototype. -/
def spreadToObject (args : List JSValue) : JSValue :=
  .obj ((args.enum.map fun p => (Nat.repr p.1, p.2)))

/-- A value that is not plain data in the sense of the envelope invariant: an
executable value. Used to state what a serialization guard must reject. -/
def hasNonDataValue (args : List JSValue) : Bool :=
  args.any fun a => match a with | .func => true | _ => false

/-! ## src/WebEventEmitterClient.ts (got-based client, current revision) -/

/-- Outcome of the HTTP GET plus JSON decode performed inside the try block of
the got-based client: an error stands for any transport failure, timeout or
unparsable body (all of which throw inside the try); a success carries the
parsed body. -/
abbrev HttpJsonOutcome := Except String JSValue

/-- WebEventEmitterClient.isAlive: on any throw inside the try block the catch
returns false; otherwise the parsed body is cast (NOT validated) and its
success field is returned as-is. -/
def isAliveGot (r : HttpJsonOutcome) : JSValue :=
  match r with
  | .error _ => .bool false
  | .ok body => jsGetField body "success"

/-- Shape of the body actually produced by the status route (router.get in
responses/IWebHookEvent.ts lines 538-547): success boolean, nodeStatus and
networkStatus strings, servers and eventNames arrays. -/
def wellFormedStatusBody (b : JSValue) : Bool :=
  jsTypeOf (jsGetField b "success") == "boolean"
    && jsTypeOf (jsGetField b "nodeStatus") == "string"
    && jsTypeOf (jsGetField b "networkStatus") == "string"
    && (match jsGetField b "servers" with | .arr _ => true | _ => false)
    && (match jsGetField b "eventNames" with | .arr _ => true | _ => false)

/-- A well-formed status body whose success field is true: the alive answer a
healthy node actually sends. -/
def wellFormedAliveStatusBody (b : JSValue) : Bool :=
  wellFormedStatusBody b && (match jsGetField b "success" with
                             | .bool t => t
                             | _ => false)

/-- The argument guard at the top of the got-based client emit (part_004 line
61): throws before any network activity when the argument list is non-empty
and some argument is not a POJO. -/
def clientEmitPreThrow (args : List JSValue) : Bool :=
  !args.isEmpty && !(args.all isPOJO)

/-! ## src/WebEventEmitterClient.ts (axios-based WebEventEmitterEndpoint) -/

/-- Axios-based isAlive (lines 28-39): on success runs isIWebStatusResponse on
the data; every throw inside the try, including the TypeError the validator
raises on primitive data, is caught and yields false. -/
def isAliveAxios (r : HttpJsonOutcome) : Bool :=
  match r with
  | .error _ => false
  | .ok data =>
      match isIWebStatusResponse data with
      | .ok b => b
      | .error _ => false

/-- Axios-based serverNames (lines 41-49): no catch; a transport error or a
validator TypeError propagates, and when the validator answers false the
method throws the bad-response error; only a validated body would return. -/
def serverNamesAxios (r : HttpJsonOutcome) : Except String JSValue :=
  match r with
  | .error e => .error e
  | .ok data =>
      match isIWebStatusResponse data with
      | .error e => .error e
      | .ok true => .ok (jsGetField data "servers")
      | .ok false => .error "Bad response object received from remote."

/-! ## Event identifier codec
stringToSymbolOrString and the symbol flattening used on the wire.
Strings are modelled as lists of characters so that the slicing arithmetic of
the source is explicit. An identifier is a plain string name, a process-local
unique symbol with a description, or a shared-registry symbol obtained from
the global symbol registry for a description. -/

inductive EventIdent where
  | plain (s : List Char)
  | uniqueSym (d : List Char)
  | registrySym (d : List Char)
  deriving DecidableEq

/-- The seven characters of the marker the codec looks for. -/
def symbolMarkChars : List Char := ['S', 'y', 'm', 'b', 'o', 'l', '(']

/-- JavaScript toString on an event identifier: a symbol with description d
prints as the marker, the description, and a closing parenthesis; a string
prints as itself. This is what the got-based client sends as the event field
(part_004 line 64). -/
def jsEventToString : EventIdent → List Char
  | .plain s => s
  | .uniqueSym d => symbolMarkChars ++ d ++ [')']
  | .registrySym d => symbolMarkChars ++ d ++ [')']

/-- typeof event === symbol, the flag the got-based client sends (line 65). -/
def isSymbolIdent : EventIdent → Bool
  | .plain _ => false
  | _ => true

/-- The wire encoding of an identifier performed by the got-based client emit:
the toString text together with the symbol flag. -/
def encodeEvent (e : EventIdent) : List Char × Bool :=
  (jsEventToString e, isSymbolIdent e)

/-- WebEventEmitter.ts stringToSymbolOrString (lines 600-605): when the value
carries the symbol marker and a closing parenthesis, slice out the middle and
resolve it through the shared registry; otherwise return the string as-is. -/
def stringToSymbolOrString (value : List Char) : EventIdent :=
  if symbolMarkChars.isPrefixOf value && [')'].isSuffixOf value
  then .registrySym ((value.take (value.length - 1)).drop 7)
  else .plain value

/-- The decoding performed by the inbound emit route (responses/IWebHookEvent.ts
line 527): apply stringToSymbolOrString when the symbol flag is set, else use
the name unchanged. -/
def decodeEvent (name : List Char) (isSym : Bool) : EventIdent :=
  if isSym then stringToSymbolOrString name else .plain name

/-! ## WebEventEmitter (src/responses/IWebHookEvent.ts, lines 108-562)
The emitter state relevant to the claims: the resolved own address (none while
the server is not listening or unresolvable), the cached server list that
networkSync maintains, and the local listener registrations. A listener is a
pair of its event name and a listener id; registration order is list order. -/

structure Emitter where
  address : Option String
  cachedServerList : List String
  bus : List (String × Nat)

/-- First-occurrence deduplication, the behaviour of inserting into a
JavaScript Set and reading it back with Array.from. -/
def jsSetDedupAux (seen : List String) : List String → List String
  | [] => []
  | a :: rest =>
      if a ∈ seen then jsSetDedupAux seen rest
      else a :: jsSetDedupAux (a :: seen) rest

/-- Array.from over a Set built by repeated add: insertion order, first
occurrence kept. -/
def jsSetDedup (l : List String) : List String :=
  jsSetDedupAux [] l

/-- serverList (lines 478-488): a Set seeded with the own address when one is
resolvable, then every cached server, read back in insertion order. -/
def serverList (e : Emitter) : List String :=
  jsSetDedup ((match e.address with | some a => [a] | none => []) ++ e.cachedServerList)

/-- The return value of the inherited emit that localEmit delegates to, on
listeners that return normally: whether at least one listener was registered
for the event. -/
def localEmitHad (bus : List (String × Nat)) (ev : String) : Bool :=
  bus.any fun p => p.1 == ev

/-- The listener ids invoked by one localEmit call, in registration order (one
invocation per registration). -/
def dispatchedIds (bus : List (String × Nat)) (ev : String) : List Nat :=
  (bus.filter fun p => p.1 == ev).map Prod.snd

/-- Everything one globalEmit call does that the claims observe: the returned
boolean, the local listener invocations, the addresses a per-peer client emit
was started for, and the addresses an HTTP post actually went out to. -/
structure GEmitResult where
  returned : Bool
  dispatched : List Nat
  clientCalls : List String
  httpPosts : List String
  deriving DecidableEq

/-- remoteEmitOnly (lines 380-401): one client emit per entry of serverList
(the peer snapshot), each branch caught so a failure counts as false, results
folded with or over false. The per-branch network outcome is an oracle: none
models a branch that failed (transport error, bad acknowledgement, or the
client argument guard throwing); some b models a successful acknowledgement
with hadListeners b. A branch whose client guard throws does so before its
HTTP post. -/
def remoteEmitOnlyModel (e : Emitter) (args : List JSValue)
    (net : String → Option Bool) : Bool × List String × List String :=
  let targets := serverList e
  let results := targets.map fun t =>
    if clientEmitPreThrow args then false else (net t).getD false
  (results.foldl (· || ·) false,
   targets,
   if clientEmitPreThrow args then [] else targets)

/-- globalEmit (lines 368-373): local dispatch first, then the awaited remote
fan-out, result is the disjunction. -/
def globalEmitModel (e : Emitter) (ev : String) (args : List JSValue)
    (net : String → Option Bool) : GEmitResult :=
  let hadLocal := localEmitHad e.bus ev
  let remote := remoteEmitOnlyModel e args net
  { returned := hadLocal || remote.1
    dispatched := dispatchedIds e.bus ev
    clientCalls := remote.2.1
    httpPosts := remote.2.2 }

/-- emit (lines 336-351): the serialization guard tests isPOJO on the object
spread of the argument array, then dispatches locally and fires the remote
propagation without awaiting it; the returned boolean is the local result. An
error value models the serialization throw. -/
def emitModel (bus : List (String × Nat)) (ev : String) (args : List JSValue) :
    Except String Bool :=
  if !isPOJO (spreadToObject args)
  then .error "Some of the event data can not be serialized. Propagation halted."
  else .ok (localEmitHad bus ev)

/-- The starting set of one networkSync cycle (line 238): the singleton seed
when one is given, else the cached server list. -/
def startingSet (e : Emitter) (seed : Option String) : List String :=
  match seed with
  | some s => [s]
  | none => e.cachedServerList

/-- networkSync (lines 237-259): one client per starting address; every client
whose isAlive probe answers contributes its own url followed by the server
names it reports, a failed probe contributes nothing; the flattened lists are
deduplicated through a Set and assigned to the cached server list in a single
assignment after all branches are joined. The oracle net sends each probed
address to none (probe failed) or some names (alive, with its reported list). -/
def networkSyncModel (e : Emitter) (seed : Option String)
    (net : String → Option (List String)) : Emitter :=
  { e with cachedServerList :=
      jsSetDedup (((startingSet e seed).map fun u =>
        match net u with
        | some names => u :: names
        | none => []).flatten) }

/-- The isAlive probes one networkSync cycle issues, in order: exactly one per
entry of the starting set (lines 240-252 build one client per entry and call
isAlive once on it). -/
def networkSyncProbes (e : Emitter) (seed : Option String) : List String :=
  startingSet e seed

/-- serverStatus (lines 421-424): a stub that ignores all node state.
The lifecycle argument records what the introspection is supposed to inspect. -/
inductive LifecycleState where
  | notYetListening
  | listening
  | closing
  | listenFailed
  deriving DecidableEq

def serverStatus (s : LifecycleState) : String := "RUNNING"

/-- What one sync cycle saw, for the network-state introspection: how many
peers were configured and how many of them were reachable. -/
structure SyncView where
  configured : Nat
  reachable : Nat
  deriving DecidableEq

/-- networkStatus (lines 426-429): a stub that ignores the sync outcome. -/
def networkStatus (v : SyncView) : String := "HEALTHY"

/-- Modelled from the spec: the nodeState derivation the status responder is
specified to perform (STARTING before listening has begun, RUNNING while
listening, CLOSING during shutdown, ERROR when listening failed). The
implementation behind serverStatus is an acknowledged stub, so the intended
derivation is taken from the spec text. -/
def claimedNodeState : LifecycleState → String
  | .notYetListening => "STARTING"
  | .listening => "RUNNING"
  | .closing => "CLOSING"
  | .listenFailed => "ERROR"

/-- Modelled from the spec: the networkState derivation the status responder
is specified to perform (HEALTHY when at least one peer was reachable or none
were configured, PARTIAL when some but not all configured peers were
unreachable, DOWN when none were reachable though at least one was expected).
The implementation behind networkStatus is an acknowledged stub. -/
def claimedNetworkState (v : SyncView) : String :=
  if v.reachable > 0 || v.configured == 0 then
    if v.reachable < v.configured then "PARTIAL" else "HEALTHY"
  else "DOWN"

/-- The inbound emit route (lines 521-536): status 200 with a local dispatch
when the validator accepts the body, else status 400 and no dispatch. The
boolean records whether localEmit ran. -/
def routeEmit (body : JSValue) : Nat × Bool :=
  if isIWebHookEvent body then (200, true) else (400, false)

/-- How the promise returned by listen settles. -/
inductive ListenSettle where
  | resolved
  | rejected (msg : String)
  deriving DecidableEq

/-- listen (lines 279-300). The state is the stored server handle: none before
any bind, some b after a bind that left the handle listening (b true) or not.
When the stored server is already listening the promise is rejected first, but
the method does not return: it still calls koaApplication.listen, overwriting
the handle with a freshly bound server. The result records how the promise
settles (first settlement wins), the final handle, and whether a new bind was
performed. -/
def listenModel (koaServer : Option Bool) (newBindListening : Bool) :
    ListenSettle × Option Bool × Bool :=
  let alreadyRejected := koaServer = some true
  let callbackSettle : ListenSettle :=
    if newBindListening then .resolved else .rejected "Failed to start listening"
  (if alreadyRejected then .rejected "Emitter already listening." else callbackSettle,
   some newBindListening,
   true)

/-! ## The inherited event dispatch (the events module)
localEmit is super.emit, the emit of the Node.js events.EventEmitter base
class, a dependency whose source is outside this repository. Its documented
and observed semantics: listeners run synchronously in registration order; an
exception thrown by a listener propagates out of emit immediately, so later
listeners do not run; when every listener returns, emit returns true exactly
when at least one listener was registered. A listener is modelled by whether
it returns or throws. -/

inductive ListenerBehavior where
  | ok
  | throws
  deriving DecidableEq

/-- The listeners actually invoked by one dispatch, and whether an exception
escaped: invocation stops with the first throwing listener. -/
def runListeners : List ListenerBehavior → List ListenerBehavior × Option Unit
  | [] => ([], none)
  | .ok :: rest =>
      let r := runListeners rest
      (.ok :: r.1, r.2)
  | .throws :: _ => ([.throws], some ())

/-- The outcome of the inherited emit on the given listener list: the thrown
exception when one escapes, else true exactly when listeners existed. -/
def emitNodeResult (ls : List ListenerBehavior) : Except Unit Bool :=
  match (runListeners ls).2 with
  | some _ => .error ()
  | none => .ok (!ls.isEmpty)

/-- The listeners one dispatch invoked, in order. -/
def emitNodeRan (ls : List ListenerBehavior) : List ListenerBehavior :=
  (runListeners ls).1

/-! ## Concrete fixtures used in counterexamples and witnesses -/

/-- A listening node with one configured peer and one local listener. -/
def egListening : Emitter :=
  { address := some "http://a/", cachedServerList := ["http://b/"], bus := [("e", 0)] }

/-- A listening node with zero configured peers and one local listener. -/
def egListeningNoPeers : Emitter :=
  { address := some "http://a/", cachedServerList := [], bus := [("e", 0)] }

/-- A non-listening node with zero configured peers and one local listener. -/
def egOffline : Emitter :=
  { address := none, cachedServerList := [], bus := [("e", 0)] }

/-- A remote-emit oracle on which every branch fails. -/
def egNetAllFail : String → Option Bool := fun _ => none

/-- A node for the sync fixture: listening, with one live and one dead peer
cached. -/
def egSyncNode : Emitter :=
  { address := some "http://self/",
    cachedServerList := ["http://b/", "http://dead/"], bus := [] }

/-- A sync oracle: the live peer reports one further server, the dead peer
fails its probe. -/
def egSyncNet : String → Option (List String) := fun a =>
  if a == "http://b/" then some ["http://c/"] else none

/-- A parsable but malformed status body: only a success field. -/
def egThinStatusBody : JSValue := .obj [("success", .bool true)]

/-- The status body a healthy node sends. -/
def egFullStatusBody : JSValue :=
  .obj [("success", .bool true), ("nodeStatus", .str "RUNNING"),
        ("networkStatus", .str "HEALTHY"), ("servers", .arr [.str "http://a/"]),
        ("eventNames", .arr [])]

/-! ## Helper lemmas -/

theorem mem_jsSetDedupAux (x : String) :
    ∀ (l seen : List String), x ∈ jsSetDedupAux seen l ↔ x ∈ l ∧ x ∉ seen := by
  intro l
  induction l with
  | nil => intro seen; simp [jsSetDedupAux]
  | cons a rest ih =>
      intro seen
      by_cases h : a ∈ seen
      · simp only [jsSetDedupAux, if_pos h, ih, List.mem_cons]
        by_cases hxa : x = a
        · subst hxa; simp [h]
        · simp [hxa]
      · simp only [jsSetDedupAux, if_neg h, List.mem_cons, ih]
        by_cases hxa : x = a
        · subst hxa; simp [h]
        · simp [hxa]

theorem mem_jsSetDedup (x : String) (l : List String) :
    x ∈ jsSetDedup l ↔ x ∈ l := by
  simp [jsSetDedup, mem_jsSetDedupAux]

theorem mem_serverList (e : Emitter) (x : String) :
    x ∈ serverList e ↔ e.address = some x ∨ x ∈ e.cachedServerList := by
  unfold serverList
  rw [mem_jsSetDedup, List.mem_append]
  cases h : e.address with
  | none => simp
  | some a => simp [eq_comm]

theorem isPrefixOf_append (l t : List Char) : l.isPrefixOf (l ++ t) = true := by
  induction l with
  | nil => simp [List.isPrefixOf]
  | cons a as ih => simp [List.isPrefixOf, ih]

theorem isSuffixOf_singleton_append (c : Char) (l : List Char) :
    [c].isSuffixOf (l ++ [c]) = true := by
  simp [List.isSuffixOf, List.reverse_append, List.isPrefixOf]

theorem jsLooseEqUndefined_eq_true (v : JSValue) :
    jsLooseEqUndefined v = true ↔ v = .undefined ∨ v = .null := by
  cases v <;> simp [jsLooseEqUndefined]

theorem jsInStringArray_servers (len : Nat) :
    jsInStringArray "servers" len = false := by
  have h : jsStringToIndex "servers" = none := by decide
  simp only [jsInStringArray, h]
  decide

theorem jsInStringArray_nodeStatus (len : Nat) :
    jsInStringArray "nodeStatus" len = false := by
  have h : jsStringToIndex "nodeStatus" = none := by decide
  simp only [jsInStringArray, h]
  decide

theorem isIWebStatusResponse_never_true (o : JSValue) :
    isIWebStatusResponse o = .ok false ∨ ∃ m, isIWebStatusResponse o = .error m := by
  unfold isIWebStatusResponse
  cases h : jsOwnKeys o with
  | error m => exact Or.inr ⟨m, rfl⟩
  | ok keys => simp [jsInStringArray_servers]

/-! ## Claim theorems -/

/-- C8: for every object (or array) input the status-response validator
isIWebStatusResponse answers false, because it applies the property-membership
operator to the ARRAY of own keys, whose properties are numeric index strings,
length, and inherited method names, never the key strings servers, nodeStatus,
eventNames or networkStatus stored as its elements; on any other input it
throws. Consequently the axios-based client isAlive answers false on every
outcome, including a well-shaped live reply, and serverNames always throws. -/
theorem c8_statusValidator_always_false :
    (∀ o : JSValue, isIWebStatusResponse o = .ok false
        ∨ ∃ m, isIWebStatusResponse o = .error m)
    ∧ (∀ r : HttpJsonOutcome, isAliveAxios r = false)
    ∧ (∀ r : HttpJsonOutcome, ∃ m, serverNamesAxios r = .error m)
    ∧ isAliveAxios (.ok (.obj [("success", .bool true), ("nodeStatus", .str "RUNNING"),
        ("networkStatus", .str "HEALTHY"), ("servers", .arr []),
        ("eventNames", .arr [])])) = false := by
  refine ⟨isIWebStatusResponse_never_true, ?_, ?_, ?_⟩
  · intro r
    cases r with
    | error _ => rfl
    | ok data =>
        rcases isIWebStatusResponse_never_true data with h | ⟨m, h⟩ <;>
          simp [isAliveAxios, h]
  · intro r
    cases r with
    | error m => exact ⟨m, rfl⟩
    | ok data =>
        rcases isIWebStatusResponse_never_true data with h | ⟨m, h⟩
        · exact ⟨"Bad response object received from remote.",
            by simp [serverNamesAxios, h]⟩
        · exact ⟨m, by simp [serverNamesAxios, h]⟩
  · have h := isIWebStatusResponse_never_true (.obj [("success", .bool true),
      ("nodeStatus", .str "RUNNING"), ("networkStatus", .str "HEALTHY"),
      ("servers", .arr []), ("eventNames", .arr [])])
    rcases h with h | ⟨m, h⟩ <;> simp [isAliveAxios, h]

/-- C9 counterexample: the claim says the validator accepts every object whose
event property is defined and rejects whenever symbol is present but not a
boolean. The comparisons in the source are loose, so null behaves like
undefined on both sides: a body whose event property is present with value
null is rejected, and a body whose symbol property is present with value null
(typeof object, not a boolean) is accepted. -/
theorem c9_counterexample :
    isIWebHookEvent (.obj [("event", .null)]) = false
    ∧ jsGetField (.obj [("event", .null)]) "event" = .null
    ∧ isIWebHookEvent (.obj [("event", .str "e"), ("symbol", .null)]) = true
    ∧ jsGetField (.obj [("event", .str "e"), ("symbol", .null)]) "symbol" = .null
    ∧ jsTypeOf .null = "object" := by
  refine ⟨rfl, rfl, rfl, rfl, rfl⟩

/-- C9 (amended): the validator treats null exactly like undefined (loose
comparisons). It accepts any body whose event value is neither undefined nor
null - numbers included - and ignores all other members; it rejects exactly
when event is undefined or null, or symbol is neither undefined, null nor a
boolean, or args is neither undefined, null nor of typeof object. A body such
as the object with event 17 is therefore answered with status 200 and
dispatched locally by the emit route. -/
theorem c9_validator_loose (o : JSValue) (v : JSValue) :
    (jsLooseEqUndefined v = false → isIWebHookEvent (.obj [("event", v)]) = true)
    ∧ (isIWebHookEvent o = false ↔
        (jsGetField o "event" = .undefined ∨ jsGetField o "event" = .null)
        ∨ (¬(jsGetField o "symbol" = .undefined ∨ jsGetField o "symbol" = .null)
            ∧ jsTypeOf (jsGetField o "symbol") ≠ "boolean")
        ∨ (¬(jsGetField o "args" = .undefined ∨ jsGetField o "args" = .null)
            ∧ jsTypeOf (jsGetField o "args") ≠ "object"))
    ∧ routeEmit (.obj [("event", .num 17)]) = (200, true) := by
  refine ⟨?_, ?_, rfl⟩
  · intro hv
    have h1 : jsGetField (JSValue.obj [("event", v)]) "event" = v := rfl
    have h2 : jsGetField (JSValue.obj [("event", v)]) "symbol" = .undefined := by
      simp [jsGetField, List.lookup]
    have h3 : jsGetField (JSValue.obj [("event", v)]) "args" = .undefined := by
      simp [jsGetField, List.lookup]
    have h4 : jsLooseEqUndefined JSValue.undefined = true := rfl
    simp [isIWebHookEvent, h1, h2, h3, hv, h4]
  · unfold isIWebHookEvent
    rw [← jsLooseEqUndefined_eq_true (jsGetField o "event"),
        ← jsLooseEqUndefined_eq_true (jsGetField o "symbol"),
        ← jsLooseEqUndefined_eq_true (jsGetField o "args"),
        show (jsTypeOf (jsGetField o "symbol") ≠ "boolean")
          ↔ ((jsTypeOf (jsGetField o "symbol") == "boolean") = false) from by simp,
        show (jsTypeOf (jsGetField o "args") ≠ "object")
          ↔ ((jsTypeOf (jsGetField o "args") == "object") = false) from by simp]
    generalize jsLooseEqUndefined (jsGetField o "event") = a
    generalize jsLooseEqUndefined (jsGetField o "symbol") = b
    generalize (jsTypeOf (jsGetField o "symbol") == "boolean") = tb
    generalize jsLooseEqUndefined (jsGetField o "args") = c
    generalize (jsTypeOf (jsGetField o "args") == "object") = tc
    revert a b tb c tc
    decide

/-- C9 witness: a numeric event value is neither undefined nor null, hence
accepted. -/
theorem c9_validator_loose_witness :
    isIWebHookEvent (.obj [("event", .num 17)]) = true :=
  (c9_validator_loose (.obj [("event", .num 17)]) (.num 17)).1 rfl

/-- C7: both introspections are acknowledged stubs (TODO comments in lines
421-429). serverStatus returns the constant RUNNING in every lifecycle state
and networkStatus returns the constant HEALTHY for every sync outcome, so on a
node that has not yet begun listening the claimed STARTING is not produced,
and after a sync that reached none of two configured peers the claimed DOWN is
not produced. -/
theorem c7_status_stubs :
    (∀ s : LifecycleState, serverStatus s = "RUNNING")
    ∧ (∀ v : SyncView, networkStatus v = "HEALTHY")
    ∧ claimedNodeState .notYetListening = "STARTING"
    ∧ serverStatus .notYetListening ≠ claimedNodeState .notYetListening
    ∧ claimedNetworkState ⟨2, 0⟩ = "DOWN"
    ∧ networkStatus ⟨2, 0⟩ ≠ claimedNetworkState ⟨2, 0⟩
    ∧ claimedNetworkState ⟨2, 1⟩ = "PARTIAL"
    ∧ networkStatus ⟨2, 1⟩ ≠ claimedNetworkState ⟨2, 1⟩ := by
  refine ⟨fun _ => rfl, fun _ => rfl, rfl, by decide, by decide, by decide,
    by decide, by decide⟩

/-- C10 counterexample: with the stored server already listening, listen does
reject the promise with the already-listening error, but because the method
does not return after rejecting, it still performs a second bind and
overwrites the stored handle (the third component records that a bind was
performed; the claim asserts the rejection happens INSTEAD of a second bind). -/
theorem c10_counterexample :
    listenModel (some true) true
      = (.rejected "Emitter already listening.", some true, true) := by
  rfl

/-- C10 (amended): when listen is called while the internal server is already
listening, the returned promise rejects with the already-listening error (the
rejection is the first settlement, so it is the one the caller observes), but
the method still calls koaApplication.listen once more, binding a fresh server
and overwriting the stored handle with it. -/
theorem c10_listen_rejects_but_rebinds (b : Bool) :
    (listenModel (some true) b).1 = .rejected "Emitter already listening."
    ∧ (listenModel (some true) b).2.1 = some b
    ∧ (listenModel (some true) b).2.2 = true := by
  refine ⟨rfl, rfl, rfl⟩

theorem stringToSymbolOrString_wrap (d : List Char) :
    stringToSymbolOrString (symbolMarkChars ++ d ++ [')']) = .registrySym d := by
  have hp : symbolMarkChars.isPrefixOf (symbolMarkChars ++ d ++ [')']) = true := by
    rw [List.append_assoc]
    exact isPrefixOf_append _ _
  have hs : [')'].isSuffixOf (symbolMarkChars ++ d ++ [')']) = true :=
    isSuffixOf_singleton_append ')' (symbolMarkChars ++ d)
  simp only [stringToSymbolOrString, hp, hs, Bool.and_self, if_true]
  have hlen : (symbolMarkChars ++ d ++ [')']).length - 1
      = (symbolMarkChars ++ d).length := by
    simp [symbolMarkChars]
  rw [hlen, List.take_left]
  have h7 : (7 : Nat) = symbolMarkChars.length := rfl
  rw [h7, List.drop_left]

/-- C4: a symbol identifier with display text d - whether it is a
process-local unique symbol or already a shared-registry symbol - is encoded
by the client as its toString text with the symbol flag set, and the inbound
decode resolves that pair to the shared-registry symbol for d. Decoding is a
pure function of the wire pair, so two processes decoding the encodings of
independently minted symbols with the same display text obtain the same
registry identifier; and a plain string name with the flag unset decodes to
itself unchanged. -/
theorem c4_codec_roundtrip (d s : List Char) :
    decodeEvent (encodeEvent (.uniqueSym d)).1 (encodeEvent (.uniqueSym d)).2
      = .registrySym d
    ∧ decodeEvent (encodeEvent (.registrySym d)).1 (encodeEvent (.registrySym d)).2
      = .registrySym d
    ∧ decodeEvent (encodeEvent (.uniqueSym d)).1 (encodeEvent (.uniqueSym d)).2
      = decodeEvent (encodeEvent (.registrySym d)).1 (encodeEvent (.registrySym d)).2
    ∧ decodeEvent s false = .plain s := by
  have h : decodeEvent (symbolMarkChars ++ d ++ [')']) true = .registrySym d := by
    simp only [decodeEvent, if_true]
    exact stringToSymbolOrString_wrap d
  exact ⟨h, h, rfl, rfl⟩

theorem mem_networkSync_cached (e : Emitter) (seed : Option String)
    (net : String → Option (List String)) (y : String) :
    y ∈ (networkSyncModel e seed net).cachedServerList
      ↔ ∃ a ∈ startingSet e seed, ∃ l, net a = some l ∧ (y = a ∨ y ∈ l) := by
  unfold networkSyncModel
  rw [mem_jsSetDedup, List.mem_flatten]
  constructor
  · rintro ⟨l', hl', hy⟩
    rw [List.mem_map] at hl'
    obtain ⟨a, ha, rfl⟩ := hl'
    cases hna : net a with
    | none => rw [hna] at hy; cases hy
    | some l =>
        rw [hna] at hy
        exact ⟨a, ha, l, hna, by simpa using hy⟩
  · rintro ⟨a, ha, l, hna, hy⟩
    refine ⟨match net a with | some names => a :: names | none => [],
      List.mem_map.mpr ⟨a, ha, rfl⟩, ?_⟩
    rw [hna]
    simpa using hy

/-- C3: one sync cycle starts from the singleton seed when one is given, else
from the stored peer list; it issues exactly one liveness probe per starting
address (no retries within the cycle); the stored peer list it computes in its
single final assignment contains exactly the addresses a of the starting set
that answered the probe together with the peers each such a reported, so
addresses failing the probe are dropped; the own address is untouched by sync,
and the peer snapshot (serverList) after the cycle contains the own address
whenever the node has one (is reachable) plus exactly the addresses learned
this cycle. -/
theorem c3_networkSync (e : Emitter) (seed : Option String)
    (net : String → Option (List String)) (x o : String) :
    (x ∈ (networkSyncModel e seed net).cachedServerList
      ↔ ∃ a ∈ startingSet e seed, ∃ l, net a = some l ∧ (x = a ∨ x ∈ l))
    ∧ networkSyncProbes e seed = startingSet e seed
    ∧ (networkSyncModel e seed net).address = e.address
    ∧ (e.address = some o → o ∈ serverList (networkSyncModel e seed net))
    ∧ (x ∈ serverList (networkSyncModel e seed net)
      ↔ e.address = some x
        ∨ ∃ a ∈ startingSet e seed, ∃ l, net a = some l ∧ (x = a ∨ x ∈ l)) := by
  refine ⟨mem_networkSync_cached e seed net x, rfl, rfl, ?_, ?_⟩
  · intro h
    rw [mem_serverList]
    exact Or.inl h
  · rw [mem_serverList, mem_networkSync_cached]
    exact Iff.rfl

/-- C3 witness: on the sync fixture, the own address is in the post-sync
snapshot, the live peer and the server it reported are retained, and the dead
peer is dropped. -/
theorem c3_networkSync_witness :
    "http://self/" ∈ serverList (networkSyncModel egSyncNode none egSyncNet)
    ∧ "http://b/" ∈ serverList (networkSyncModel egSyncNode none egSyncNet)
    ∧ "http://c/" ∈ serverList (networkSyncModel egSyncNode none egSyncNet)
    ∧ "http://dead/" ∉ serverList (networkSyncModel egSyncNode none egSyncNet) := by
  refine ⟨(c3_networkSync egSyncNode none egSyncNet "x" "http://self/").2.2.2.1 rfl,
    ?_, ?_, ?_⟩
  · rw [(c3_networkSync egSyncNode none egSyncNet "http://b/" "o").2.2.2.2]
    exact Or.inr ⟨"http://b/", by decide, ["http://c/"], by decide, Or.inl rfl⟩
  · rw [(c3_networkSync egSyncNode none egSyncNet "http://c/" "o").2.2.2.2]
    exact Or.inr ⟨"http://b/", by decide, ["http://c/"], by decide, Or.inr (by decide)⟩
  · rw [(c3_networkSync egSyncNode none egSyncNet "http://dead/" "o").2.2.2.2]
    rintro (h | ⟨a, ha, l, hna, hy⟩)
    · exact absurd h (by decide)
    · have ha2 : a = "http://b/" ∨ a = "http://dead/" := by
        simpa [egSyncNode, startingSet] using ha
      rcases ha2 with rfl | rfl
      · have : l = ["http://c/"] := by
          have := hna
          rw [show egSyncNet "http://b/" = some ["http://c/"] from by decide] at this
          exact (Option.some.injEq _ _ ▸ this.symm).symm ▸ rfl
        subst this
        rcases hy with h | h
        · exact absurd h (by decide)
        · exact absurd h (by decide)
      · rw [show egSyncNet "http://dead/" = none from by decide] at hna
        cases hna

theorem runListeners_all_ok (ls : List ListenerBehavior)
    (h : ∀ l ∈ ls, l = .ok) : runListeners ls = (ls, none) := by
  induction ls with
  | nil => rfl
  | cons a rest ih =>
      have ha : a = .ok := h a (List.mem_cons_self a rest)
      subst ha
      have := ih fun l hl => h l (List.mem_cons_of_mem _ hl)
      simp [runListeners, this]

theorem runListeners_first_throw (pre post : List ListenerBehavior)
    (h : ∀ l ∈ pre, l = .ok) :
    runListeners (pre ++ .throws :: post) = (pre ++ [.throws], some ()) := by
  induction pre with
  | nil => rfl
  | cons a rest ih =>
      have ha : a = .ok := h a (List.mem_cons_self a rest)
      subst ha
      have := ih fun l hl => h l (List.mem_cons_of_mem _ hl)
      simp [runListeners, this]

/-- C6 counterexample: the inherited dispatch that localEmit delegates to does
not isolate listener failures. With two listeners of which the first throws,
only the first runs, the exception escapes the dispatch, and no boolean is
returned at all - contradicting the claim that remaining listeners still run
and that the call returns true. -/
theorem c6_counterexample :
    emitNodeResult [.throws, .ok] = .error ()
    ∧ emitNodeRan [.throws, .ok] = [.throws]
    ∧ (emitNodeRan [.throws, .ok]).length = 1 := by
  exact ⟨rfl, rfl, rfl⟩

/-- C6 (amended): localEmit delegates to the inherited emit without any
per-listener isolation, so dispatch stops at the first throwing listener: the
listeners before it and the thrower itself run, the listeners after it do not,
and the exception propagates out of the dispatch instead of a return value;
only when every listener returns normally does the dispatch return true for a
nonempty listener list. -/
theorem c6_dispatch_aborts (pre post : List ListenerBehavior)
    (h : ∀ l ∈ pre, l = .ok) :
    emitNodeResult (pre ++ .throws :: post) = .error ()
    ∧ emitNodeRan (pre ++ .throws :: post) = pre ++ [.throws]
    ∧ emitNodeResult pre = .ok (!pre.isEmpty)
    ∧ emitNodeRan pre = pre := by
  have h1 := runListeners_first_throw pre post h
  have h2 := runListeners_all_ok pre h
  refine ⟨?_, ?_, ?_, ?_⟩ <;> simp [emitNodeResult, emitNodeRan, h1, h2]

/-- C6 witness: one well-behaved listener before the thrower, one after. -/
theorem c6_dispatch_aborts_witness :
    emitNodeResult [.ok, .throws, .ok] = .error ()
    ∧ emitNodeRan [.ok, .throws, .ok] = [.ok, .throws]
    ∧ emitNodeResult [.ok] = .ok true := by
  obtain ⟨h1, h2, h3, -⟩ := c6_dispatch_aborts [.ok] [.ok] (by decide)
  exact ⟨h1, h2, h3⟩

/-- C1 counterexample: the remote fan-out of globalEmit iterates over the full
serverList snapshot, which contains the own address of a listening node. On a
listening node with one configured peer, both the peer AND the own address are
targeted; on a listening node with zero configured peers, one outbound
remote-emit call is still issued - to the node itself - although the claim
says the fan-out excludes the own address and that zero outbound calls are
issued. -/
theorem c1_counterexample :
    (globalEmitModel egListening "e" [] egNetAllFail).clientCalls
      = ["http://a/", "http://b/"]
    ∧ egListening.address = some "http://a/"
    ∧ (globalEmitModel egListeningNoPeers "e" [] egNetAllFail).clientCalls
      = ["http://a/"]
    ∧ (globalEmitModel egListeningNoPeers "e" [] egNetAllFail).clientCalls ≠ [] := by
  refine ⟨by decide, rfl, by decide, by decide⟩

/-- C1 (amended): the remote fan-out of globalEmit targets every address of
the serverList snapshot INCLUDING the own address when the node is listening;
the zero-outbound-call behaviour holds exactly when the node has no resolvable
address and no configured peers, in which case a registered local listener is
invoked exactly once, no client call or network post is made, and the call
returns the local dispatch result (true when a listener existed). -/
theorem c1_globalEmit_fanout (e : Emitter) (ev : String) (args : List JSValue)
    (net : String → Option Bool) (i : Nat) :
    (globalEmitModel e ev args net).clientCalls = serverList e
    ∧ (e.address = none → e.cachedServerList = [] →
        (globalEmitModel e ev args net).clientCalls = []
        ∧ (globalEmitModel e ev args net).httpPosts = []
        ∧ (globalEmitModel e ev args net).returned = localEmitHad e.bus ev)
    ∧ (e.bus = [(ev, i)] →
        (globalEmitModel e ev args net).dispatched = [i]
        ∧ (globalEmitModel e ev args net).returned = true) := by
  refine ⟨rfl, ?_, ?_⟩
  · intro ha hc
    have hs : serverList e = [] := by
      simp [serverList, ha, hc, jsSetDedup, jsSetDedupAux]
    refine ⟨?_, ?_, ?_⟩ <;>
      simp [globalEmitModel, remoteEmitOnlyModel, hs]
  · intro hb
    constructor
    · simp [globalEmitModel, dispatchedIds, hb]
    · simp [globalEmitModel, localEmitHad, hb]

/-- C1 witness: a non-listening node with zero peers and one local listener
for the event: the call returns true, invokes listener 0 exactly once, and
issues no outbound call. -/
theorem c1_globalEmit_fanout_witness :
    (globalEmitModel egOffline "e" [] egNetAllFail).clientCalls = []
    ∧ (globalEmitModel egOffline "e" [] egNetAllFail).dispatched = [0]
    ∧ (globalEmitModel egOffline "e" [] egNetAllFail).returned = true := by
  obtain ⟨-, h2, h3⟩ := c1_globalEmit_fanout egOffline "e" [] egNetAllFail 0
  exact ⟨(h2 rfl rfl).1, (h3 rfl).1, (h3 rfl).2⟩

/-- C2: the serialization guard of emit can never fire, because it tests
isPOJO on the object spread of the argument array, and that spread is always a
plain object whatever the arguments hold - so emit with a function argument
returns normally instead of raising; and globalEmit contains no guard at all:
with a function argument it still dispatches locally and returns normally
(each per-peer client throws its own argument error before posting, and the
fan-out catches it as false, so no error reaches the caller and no network
post is made - but no SerializationError is raised either). -/
theorem c2_serialization_guard_dead :
    (∀ args : List JSValue, isPOJO (spreadToObject args) = true)
    ∧ (∀ (bus : List (String × Nat)) (ev : String) (args : List JSValue),
        emitModel bus ev args = .ok (localEmitHad bus ev))
    ∧ hasNonDataValue [JSValue.func] = true
    ∧ emitModel [("e", 0)] "e" [JSValue.func] = .ok true
    ∧ (globalEmitModel egListening "e" [JSValue.func] egNetAllFail).returned = true
    ∧ (globalEmitModel egListening "e" [JSValue.func] egNetAllFail).httpPosts = [] := by
  refine ⟨fun args => rfl, fun bus ev args => rfl, rfl, ?_, by decide, by decide⟩
  have hp : isPOJO (spreadToObject [JSValue.func]) = true := rfl
  have hl : localEmitHad [("e", 0)] "e" = true := by decide
  simp [emitModel, hp, hl]

/-- C5 counterexample: a parsable body consisting only of a success field is
not a well-formed status response, yet isAlive answers true for it, because
the client casts the body without validating its shape and returns the success
field as-is - contradicting the claim that a malformed status response yields
the boolean false. -/
theorem c5_counterexample :
    isAliveGot (.ok egThinStatusBody) = .bool true
    ∧ wellFormedStatusBody egThinStatusBody = false := by
  exact ⟨rfl, by decide⟩

/-- C5 (amended): isAlive never raises - the try/catch turns every transport
failure, timeout or unparsable body into false, and a well-formed alive
response yields true - but a parsable body is not validated: the probe simply
returns the success field of whatever was parsed, so malformed bodies with a
truthy success field yield true and bodies without a success field yield
undefined rather than false. -/
theorem c5_isAlive_unvalidated (r : HttpJsonOutcome) :
    ((∃ m, r = .error m) → isAliveGot r = .bool false)
    ∧ (∀ b, r = .ok b → wellFormedAliveStatusBody b = true → isAliveGot r = .bool true)
    ∧ (∀ b, r = .ok b → isAliveGot r = jsGetField b "success") := by
  refine ⟨?_, ?_, ?_⟩
  · rintro ⟨m, rfl⟩
    rfl
  · rintro b rfl hwf
    have h2 := ((Bool.and_eq_true _ _).mp hwf).2
    show jsGetField b "success" = .bool true
    cases hv : jsGetField b "success" <;> rw [hv] at h2
    case bool t => exact congrArg JSValue.bool h2
    all_goals simp at h2
  · rintro b rfl
    rfl

/-- C5 witness: a timeout yields false; the body a healthy node sends yields
true. -/
theorem c5_isAlive_unvalidated_witness :
    isAliveGot (.error "timeout") = .bool false
    ∧ isAliveGot (.ok egFullStatusBody) = .bool true := by
  exact ⟨(c5_isAlive_unvalidated (.error "timeout")).1 ⟨"timeout", rfl⟩,
    (c5_isAlive_unvalidated (.ok egFullStatusBody)).2.1 egFullStatusBody rfl (by decide)⟩

end EBW

